/-
Verification of the ephemeral GPU inference operator's reconcile engine.

Shallow embedding of `src/operator/reconcile.py`, `src/operator/templates.py`,
`src/operator/k8s.py` (the parts reached from `reconcile_gpujob`) and the
handler wrapper in `src/operator/main.py`.

Modelling conventions:
- Python dict field access `spec.get(k, d)` becomes `Option.getD` on a record
  of optional fields.
- Every Kubernetes API call made during one invocation is resolved by an
  injected `Env` record: each call site has its own outcome field (`ok` payload
  or an `ApiException` with an HTTP status code).  `datetime.utcnow()` becomes
  `Env.now` (epoch seconds) / `Env.nowIso` (the ISO rendering the code suffixes
  with "Z"), and `datetime.fromisoformat` becomes `Env.parseIso`, returning the
  parsed wall-clock seconds together with the optional tz offset, or `none`
  when parsing raises.
- The reconciler returns the value the Python function returns (a status patch
  dict, `None`, or a raised exception) paired with the list of mutation API
  calls it issued, in order.  A mutation appears in the list whenever the call
  was made; whether it succeeded is read off the corresponding `Env` field.
-/
import Mathlib

/-- Outcome of one Kubernetes API call: success with a payload, or an
`ApiException` carrying its HTTP status code (404 is not-found). -/
inductive Outcome (α : Type) where
  | ok (a : α)
  | apiErr (code : Nat)
deriving DecidableEq

/-- Exceptions escaping `reconcile_gpujob`: the validation `ValueError` or a
propagated `ApiException`. -/
inductive PyErr where
  | valueError (msg : String)
  | apiExn (code : Nat)
deriving DecidableEq

/-- `kubernetes.client.V1OwnerReference` as populated by this operator. -/
structure OwnerRef where
  apiVersion : String
  kind : String
  name : String
  uid : Option String
  controller : Bool
  blockOwnerDeletion : Bool
deriving DecidableEq

/-- The PVC manifest produced by `create_pvc_manifest` (templates.py). -/
structure PvcManifest where
  name : String
  ns : String
  ownerReferences : Option (List OwnerRef)
  accessModes : List String
  storageClassName : String
  size : String
deriving DecidableEq

/-- The pod manifest produced by `create_pod_manifest` (templates.py). -/
structure PodManifest where
  name : String
  ns : String
  labels : List (String × String)
  ownerReferences : List OwnerRef
  restartPolicy : String
  image : String
  command : List String
  args : List String
  gpuRequest : String
  gpuLimit : String
  mountPath : String
  pvcName : String
deriving DecidableEq

/-- What `reconcile_gpujob` reads from a pod object: only `pod.status.phase`
flows into its decisions (`get_pod_status` also projects readiness and
container states, but the reconciler branches only on the phase). -/
structure PodObj where
  phase : String
deriving DecidableEq

/-- What `ensure_pvc` reads from an existing PVC object: its
`metadata.owner_references`. -/
structure PvcObj where
  ownerReferences : Option (List OwnerRef)
deriving DecidableEq

/-- The relevant `EphemeralAccelerationJob` spec fields; `none` models an
absent dict key. -/
structure JobSpec where
  model : Option String := none
  inputPath : Option String := none
  outputPath : Option String := none
  gpu : Option Int := none
  image : Option String := none
  storageClass : Option String := none
  pvcSize : Option String := none
  ttlSecondsAfterFinished : Option Int := none
  pvcTTLSecondsAfterFinished : Option Int := none
deriving DecidableEq

/-- The status fields `reconcile_gpujob` reads. -/
structure JobStatus where
  phase : Option String := none
  finishedAt : Option String := none
deriving DecidableEq

/-- A returned status patch: each field present iff the Python dict has the
key. -/
structure Patch where
  phase : Option String := none
  startedAt : Option String := none
  finishedAt : Option String := none
  podName : Option String := none
  artifactPath : Option String := none
  message : Option String := none
deriving DecidableEq

/-- Mutation API calls issued during one invocation, in order. -/
inductive ApiAction where
  | patchPvcOwnerRefs (pvcName ns : String) (refs : List OwnerRef)
  | createPvc (m : PvcManifest)
  | createPod (m : PodManifest)
  | deletePod (podName ns : String)
  | deletePvc (pvcName ns : String)
deriving DecidableEq

/-- The injected cluster/clock environment for one invocation: one outcome per
API call site reachable in a single run of `reconcile_gpujob`. -/
structure Env where
  readPvc : Outcome PvcObj
  patchPvc : Outcome Unit
  createPvc : Outcome Unit
  readPodStatus : Outcome PodObj
  readPodEnsure : Outcome PodObj
  createPod : Outcome Unit
  deletePod : Outcome Unit
  readPodLog : Outcome String
  deletePvc : Outcome Unit
  now : Int
  nowIso : String
  parseIso : String → Option (Int × Option Int)

/-- Python truthiness of an optional string (`None` and `""` are falsy). -/
def optStrTruthy : Option String → Bool
  | none => false
  | some s => !s.isEmpty

/-- Python truthiness of an optional list (`None` and `[]` are falsy). -/
def optListTruthy {α : Type} : Option (List α) → Bool
  | none => false
  | some l => !l.isEmpty

/-- `not pvc.metadata.owner_references or len(pvc.metadata.owner_references) == 0`. -/
def pyEmptyOrNone {α : Type} : Option (List α) → Bool
  | none => true
  | some l => l.isEmpty

/-- Python `logs[-500:]`. -/
def last500 (s : String) : String :=
  s.drop (s.length - 500)

/-- Python `finished_at.replace("Z", "+00:00")`: every occurrence of the
one-character pattern `"Z"` becomes `"+00:00"`. -/
def replaceZ (s : String) : String :=
  ⟨s.data.flatMap (fun c => if c = 'Z' then "+00:00".data else [c])⟩

/-- crd.py constants. -/
def PHASE_PENDING : String := "Pending"

def PHASE_RUNNING : String := "Running"

def PHASE_SUCCEEDED : String := "Succeeded"

def PHASE_FAILED : String := "Failed"

def ALLOWED_MODELS : List String := ["resnet50", "mobilenet_v3_small"]

/-- templates.py `create_pvc_manifest`: metadata carries the owner refs only
when truthy (`owner_refs if owner_refs else None`). -/
def create_pvc_manifest (pvc_name ns : String) (storage_class : String := "local-path")
    (size : String := "1Gi") (owner_refs : Option (List OwnerRef) := none) : PvcManifest :=
  { name := pvc_name
    ns := ns
    ownerReferences := if optListTruthy owner_refs then owner_refs else none
    accessModes := ["ReadWriteOnce"]
    storageClassName := storage_class
    size := size }

/-- templates.py `create_pod_manifest`: labels, a single owner reference with
`controller=true, blockOwnerDeletion=true` carrying the given uid verbatim,
restart policy Never, the inference container's command/args, and equal GPU
request and limit. -/
def create_pod_manifest (pod_name ns job_name : String) (uid : Option String)
    (model input_path output_path : String) (gpu_count : Int)
    (image pvc_name : String) : PodManifest :=
  { name := pod_name
    ns := ns
    labels := [("app", "gpu-job"), ("ephemeralaccelerationjob", job_name)]
    ownerReferences := [{ apiVersion := "gpu.yourdomain.io/v1alpha1"
                          kind := "EphemeralAccelerationJob"
                          name := job_name
                          uid := uid
                          controller := true
                          blockOwnerDeletion := true }]
    restartPolicy := "Never"
    image := image
    command := ["python", "-m", "job_image_infer.run_infer"]
    args := ["--model", model, "--input", input_path, "--output", output_path]
    gpuRequest := toString gpu_count
    gpuLimit := toString gpu_count
    mountPath := "/artifacts"
    pvcName := pvc_name }

/-- reconcile.py `ensure_pvc`: read; if present, patch in owner refs when ours
are truthy and the object's are missing/empty (patch failures are logged and
swallowed); on 404, create (create failures re-raise); other read errors
re-raise. -/
def ensure_pvc (env : Env) (pvc_name ns storage_class size : String)
    (owner_refs : Option (List OwnerRef)) : Except PyErr Unit × List ApiAction :=
  match env.readPvc with
  | .ok pvc =>
      if optListTruthy owner_refs ∧ pyEmptyOrNone pvc.ownerReferences then
        (.ok (), [.patchPvcOwnerRefs pvc_name ns (owner_refs.getD [])])
      else
        (.ok (), [])
  | .apiErr code =>
      if code = 404 then
        let pvc := create_pvc_manifest pvc_name ns storage_class size owner_refs
        match env.createPvc with
        | .ok _ => (.ok (), [.createPvc pvc])
        | .apiErr c => (.error (.apiExn c), [.createPvc pvc])
      else
        (.error (.apiExn code), [])

/-- reconcile.py `ensure_pod`: read; if present, return; on 404, build the
manifest from the spec (with the dict-access defaults) and create (create
failures re-raise); other read errors re-raise. -/
def ensure_pod (env : Env) (pod_name ns job_name : String) (uid : Option String)
    (spec : JobSpec) (pvc_name image : String) : Except PyErr Unit × List ApiAction :=
  match env.readPodEnsure with
  | .ok _ => (.ok (), [])
  | .apiErr code =>
      if code = 404 then
        let model := spec.model.getD "resnet50"
        let input_path := spec.inputPath.getD "/artifacts/input.jpg"
        let output_path := spec.outputPath.getD "/artifacts/output.json"
        let gpu_count := spec.gpu.getD 1
        let pod := create_pod_manifest pod_name ns job_name uid model input_path
          output_path gpu_count image pvc_name
        match env.createPod with
        | .ok _ => (.ok (), [.createPod pod])
        | .apiErr c => (.error (.apiExn c), [.createPod pod])
      else
        (.error (.apiExn code), [])

/-- k8s.py `get_pod_status`: projected pod status, `none` on 404, re-raise on
other API errors. -/
def get_pod_status (env : Env) : Except PyErr (Option PodObj) :=
  match env.readPodStatus with
  | .ok pod => .ok (some pod)
  | .apiErr code => if code = 404 then .ok none else .error (.apiExn code)

/-- k8s.py `get_pod_logs`: the log text, or `None` on any `ApiException`
(404 and non-404 alike); never raises an API error. -/
def get_pod_logs (env : Env) : Option String :=
  match env.readPodLog with
  | .ok logs => some logs
  | .apiErr _ => none

/-- reconcile.py `reconcile_gpujob`, lines 141-156 (the `Pending` branch):
ensure the PVC, ensure the pod (a raise from either propagates), then move to
`Running` recording `startedAt`, `podName` and a message. -/
def reconcilePending (env : Env) (spec : JobSpec) (name ns : String)
    (uid : Option String) (pvc_name pod_name storage_class pvc_size image : String)
    (owner_refs : Option (List OwnerRef)) :
    Except PyErr (Option Patch) × List ApiAction :=
  match ensure_pvc env pvc_name ns storage_class pvc_size owner_refs with
  | (.error e, a1) => (.error e, a1)
  | (.ok _, a1) =>
      match ensure_pod env pod_name ns name uid spec pvc_name image with
      | (.error e, a2) => (.error e, a1 ++ a2)
      | (.ok _, a2) =>
          (.ok (some { phase := some PHASE_RUNNING
                       startedAt := some (env.nowIso ++ "Z")
                       podName := some pod_name
                       message := some "Pod created and starting" }),
           a1 ++ a2)

/-- reconcile.py `reconcile_gpujob`, lines 159-230 (the `Running` branch):
project the pod status (re-raising non-404 read errors); recreate a vanished
pod; on pod `Succeeded` record the terminal patch and delete the pod when the
pod-TTL is 0 (delete failures logged and swallowed); on pod `Failed` fetch the
log tail, record the terminal patch and delete the pod unconditionally
(failures swallowed); otherwise just report the pod phase. -/
def reconcileRunning (env : Env) (spec : JobSpec) (name ns : String)
    (uid : Option String) (pvc_name pod_name image : String) :
    Except PyErr (Option Patch) × List ApiAction :=
  match get_pod_status env with
  | .error e => (.error e, [])
  | .ok none =>
      match ensure_pod env pod_name ns name uid spec pvc_name image with
      | (.error e, a) => (.error e, a)
      | (.ok _, a) => (.ok (some { message := some "Pod recreated" }), a)
  | .ok (some ps) =>
      if ps.phase = "Succeeded" then
        let output_path := spec.outputPath.getD "/artifacts/output.json"
        let ttl := spec.ttlSecondsAfterFinished.getD 0
        let base : Patch :=
          { phase := some PHASE_SUCCEEDED
            finishedAt := some (env.nowIso ++ "Z")
            artifactPath := some output_path
            message := some "Job completed successfully" }
        if ttl = 0 then
          match env.deletePod with
          | .ok _ =>
              (.ok (some { base with message := some "Job completed, pod deleted" }),
               [.deletePod pod_name ns])
          | .apiErr _ => (.ok (some base), [.deletePod pod_name ns])
        else
          (.ok (some base), [])
      else if ps.phase = "Failed" then
        let logs := get_pod_logs env
        let error_message :=
          match logs with
          | some l =>
              if l.isEmpty then "Job failed"
              else "Job failed. Last logs:\n" ++ last500 l
          | none => "Job failed"
        let patch : Patch :=
          { phase := some PHASE_FAILED
            finishedAt := some (env.nowIso ++ "Z")
            message := some error_message }
        (.ok (some patch), [.deletePod pod_name ns])
      else
        (.ok (some { message := some ("Pod is " ++ ps.phase) }), [])

/-- reconcile.py `reconcile_gpujob`, lines 233-272 (the terminal branch):
with pvc-TTL 0 delete the claim at once (failures swallowed, the patch only on
success); with a truthy `finishedAt` and positive pvc-TTL parse the timestamp
(any parse failure is caught: no delete, `None` returned), normalize a tz
offset away, and delete the claim once `now - finishedAt` reaches the TTL;
every remaining path returns `None`. -/
def reconcileTerminal (env : Env) (spec : JobSpec) (status : JobStatus)
    (pvc_name ns : String) :
    Except PyErr (Option Patch) × List ApiAction :=
  let finished_at := status.finishedAt
  let pvc_ttl := spec.pvcTTLSecondsAfterFinished.getD 3600
  if pvc_ttl = 0 then
    match env.deletePvc with
    | .ok _ =>
        (.ok (some { message := some "PVC deleted (TTL=0)" }), [.deletePvc pvc_name ns])
    | .apiErr _ => (.ok none, [.deletePvc pvc_name ns])
  else if optStrTruthy finished_at ∧ pvc_ttl > 0 then
    match env.parseIso (replaceZ (finished_at.getD "")) with
    | none => (.ok none, [])
    | some (wall, tz) =>
        let finished := match tz with | some off => wall - off | none => wall
        let elapsed := env.now - finished
        if pvc_ttl ≤ elapsed then
          match env.deletePvc with
          | .ok _ =>
              (.ok (some { message := some "PVC deleted (TTL expired)" }),
               [.deletePvc pvc_name ns])
          | .apiErr _ => (.ok none, [.deletePvc pvc_name ns])
        else
          (.ok none, [])
  else
    (.ok none, [])

/-- reconcile.py `reconcile_gpujob`: validate the model (raising `ValueError`
before any cluster call), derive the child names, configuration and owner
references, then dispatch on the observed phase (default `Pending`; unknown
phases return `None`).  Returns the Python return value (`Except` for raised
exceptions, `Option Patch` for patch-or-None) paired with the mutation calls
issued. -/
def reconcile_gpujob (env : Env) (spec : JobSpec) (status : JobStatus)
    (name ns : String) (uid : Option String) :
    Except PyErr (Option Patch) × List ApiAction :=
  let model := spec.model.getD "resnet50"
  if !(ALLOWED_MODELS.contains model) then
    (.error (.valueError ("Invalid model: " ++ model)), [])
  else
    let current_phase := status.phase.getD PHASE_PENDING
    let pvc_name := "artifacts-" ++ name
    let pod_name := "ephemeralaccelerationjob-" ++ name
    let storage_class := spec.storageClass.getD "local-path"
    let pvc_size := spec.pvcSize.getD "1Gi"
    let image := spec.image.getD "gpu-job-inference:latest"
    let owner_refs : Option (List OwnerRef) :=
      if optStrTruthy uid then
        some [{ apiVersion := "gpu.yourdomain.io/v1alpha1"
                kind := "EphemeralAccelerationJob"
                name := name
                uid := uid
                controller := true
                blockOwnerDeletion := false }]
      else none
    if current_phase = PHASE_PENDING then
      reconcilePending env spec name ns uid pvc_name pod_name storage_class pvc_size
        image owner_refs
    else if current_phase = PHASE_RUNNING then
      reconcileRunning env spec name ns uid pvc_name pod_name image
    else if current_phase = PHASE_SUCCEEDED ∨ current_phase = PHASE_FAILED then
      reconcileTerminal env spec status pvc_name ns
    else
      (.ok none, [])

/-- How `main.py`'s `gpujob_handler` surfaces one invocation. -/
inductive HandlerResult where
  | patch (p : Patch)
  | noPatch
  | permanentError (msg : String)
  | temporaryError (msg : String)
deriving DecidableEq

/-- main.py `gpujob_handler`: returns the truthy patch, maps `ValueError` to
`kopf.PermanentError` and any other exception to `kopf.TemporaryError`. -/
def gpujob_handler (env : Env) (spec : JobSpec) (status : JobStatus)
    (name ns : String) (uid : Option String) : HandlerResult :=
  match (reconcile_gpujob env spec status name ns uid).1 with
  | .ok (some p) => .patch p
  | .ok none => .noPatch
  | .error (.valueError m) => .permanentError m
  | .error (.apiExn _) => .temporaryError "Reconciliation failed"

/-- Rank of a phase in the order `Pending → Running → {Succeeded, Failed}`;
strings outside the phase set rank lowest. -/
def phaseRank : String → Nat
  | "Running" => 1
  | "Succeeded" => 2
  | "Failed" => 2
  | _ => 0

/-- A cluster environment for a happy tick: children reads miss (404), all
writes succeed, the job pod reports phase Succeeded. -/
def envPodSucceeded : Env :=
  { readPvc := .apiErr 404
    patchPvc := .ok ()
    createPvc := .ok ()
    readPodStatus := .ok { phase := "Succeeded" }
    readPodEnsure := .apiErr 404
    createPod := .ok ()
    deletePod := .ok ()
    readPodLog := .ok "logs"
    deletePvc := .ok ()
    now := 0
    nowIso := "T"
    parseIso := fun _ => none }

/-- A terminal-phase tick 70 seconds after completion: the claim delete
succeeds, and `finishedAt` parses to wall-clock second 30 at UTC offset 0
against `now = 100`. -/
def envTerminalTick : Env :=
  { readPvc := .ok { ownerReferences := none }
    patchPvc := .ok ()
    createPvc := .ok ()
    readPodStatus := .apiErr 404
    readPodEnsure := .apiErr 404
    createPod := .ok ()
    deletePod := .ok ()
    readPodLog := .apiErr 404
    deletePvc := .ok ()
    now := 100
    nowIso := "T"
    parseIso := fun s => if s = "F+00:00" then some (30, some 0) else none }

/-- The invalid spec of C5's counterexample: an allowed model but a zero GPU
count and negative TTL fields. -/
def specBadNumbers : JobSpec :=
  { model := some "resnet50"
    gpu := some 0
    ttlSecondsAfterFinished := some (-5)
    pvcTTLSecondsAfterFinished := some (-1) }

/-- A tick whose pod reports Succeeded but whose pod delete fails with a
server error (HTTP 500). -/
def envDeletePodFails : Env :=
  { readPvc := .apiErr 404
    patchPvc := .ok ()
    createPvc := .ok ()
    readPodStatus := .ok { phase := "Succeeded" }
    readPodEnsure := .apiErr 404
    createPod := .ok ()
    deletePod := .apiErr 500
    readPodLog := .ok "logs"
    deletePvc := .ok ()
    now := 0
    nowIso := "T"
    parseIso := fun _ => none }

/-- A create race: both children's reads report not-found, both creates come
back 409 Conflict (already exists). -/
def envCreateRace : Env :=
  { readPvc := .apiErr 404
    patchPvc := .ok ()
    createPvc := .apiErr 409
    readPodStatus := .apiErr 404
    readPodEnsure := .apiErr 404
    createPod := .apiErr 409
    deletePod := .ok ()
    readPodLog := .ok "logs"
    deletePvc := .ok ()
    now := 0
    nowIso := "T"
    parseIso := fun _ => none }

/-- The owner reference the reconciler derives for a job named "j" with uid
"u" (blockOwnerDeletion false, as on the claim). -/
def ownerRefU : OwnerRef :=
  { apiVersion := "gpu.yourdomain.io/v1alpha1"
    kind := "EphemeralAccelerationJob"
    name := "j"
    uid := some "u"
    controller := true
    blockOwnerDeletion := false }

/-- A steady cluster: both children exist (the claim with an owner reference
already set). -/
def envChildrenPresent : Env :=
  { readPvc := .ok { ownerReferences := some [ownerRefU] }
    patchPvc := .ok ()
    createPvc := .ok ()
    readPodStatus := .ok { phase := "Running" }
    readPodEnsure := .ok { phase := "Running" }
    createPod := .ok ()
    deletePod := .ok ()
    readPodLog := .ok "logs"
    deletePvc := .ok ()
    now := 0
    nowIso := "T"
    parseIso := fun _ => none }

/-- A tick whose pod reports Failed and whose log fetch fails with a server
error (HTTP 500). -/
def envPodFailedLogError : Env :=
  { readPvc := .apiErr 404
    patchPvc := .ok ()
    createPvc := .ok ()
    readPodStatus := .ok { phase := "Failed" }
    readPodEnsure := .apiErr 404
    createPod := .ok ()
    deletePod := .ok ()
    readPodLog := .apiErr 500
    deletePvc := .ok ()
    now := 0
    nowIso := "T"
    parseIso := fun _ => none }

/-- Every cluster read fails with a server error (HTTP 500). -/
def envReadsFail : Env :=
  { readPvc := .apiErr 500
    patchPvc := .ok ()
    createPvc := .ok ()
    readPodStatus := .apiErr 500
    readPodEnsure := .apiErr 500
    createPod := .ok ()
    deletePod := .ok ()
    readPodLog := .apiErr 500
    deletePvc := .ok ()
    now := 0
    nowIso := "T"
    parseIso := fun _ => none }

/-- Both children's reads miss (404) and both creates fail with 503. -/
def envCreatesFail : Env :=
  { readPvc := .apiErr 404
    patchPvc := .ok ()
    createPvc := .apiErr 503
    readPodStatus := .apiErr 404
    readPodEnsure := .apiErr 404
    createPod := .apiErr 503
    deletePod := .ok ()
    readPodLog := .ok "logs"
    deletePvc := .ok ()
    now := 0
    nowIso := "T"
    parseIso := fun _ => none }

/-- The pod reports Failed, its log tail reads back empty, and the pod delete
fails with a server error (HTTP 500). -/
def envPodFailedDeleteFails : Env :=
  { readPvc := .apiErr 404
    patchPvc := .ok ()
    createPvc := .ok ()
    readPodStatus := .ok { phase := "Failed" }
    readPodEnsure := .apiErr 404
    createPod := .ok ()
    deletePod := .apiErr 500
    readPodLog := .ok ""
    deletePvc := .ok ()
    now := 0
    nowIso := "T"
    parseIso := fun _ => none }

/-- The claim delete fails with a server error (HTTP 500). -/
def envDeletePvcFails : Env :=
  { readPvc := .apiErr 404
    patchPvc := .ok ()
    createPvc := .ok ()
    readPodStatus := .apiErr 404
    readPodEnsure := .apiErr 404
    createPod := .ok ()
    deletePod := .ok ()
    readPodLog := .ok "logs"
    deletePvc := .apiErr 500
    now := 0
    nowIso := "T"
    parseIso := fun _ => none }

/-- The claim exists without owner references, the owner-reference patch fails
with a server error (HTTP 500), and the pod exists. -/
def envPatchPvcFails : Env :=
  { readPvc := .ok { ownerReferences := none }
    patchPvc := .apiErr 500
    createPvc := .ok ()
    readPodStatus := .ok { phase := "Running" }
    readPodEnsure := .ok { phase := "Running" }
    createPod := .ok ()
    deletePod := .ok ()
    readPodLog := .ok "logs"
    deletePvc := .ok ()
    now := 0
    nowIso := "T"
    parseIso := fun _ => none }

theorem reconcilePending_patch_phase (env : Env) (spec : JobSpec)
    (name ns : String) (uid : Option String)
    (pvc_name pod_name sc sz im : String) (orefs : Option (List OwnerRef))
    (patch : Patch)
    (h : (reconcilePending env spec name ns uid pvc_name pod_name sc sz im orefs).1 =
      .ok (some patch)) :
    patch.phase = some PHASE_RUNNING := by
  rcases hmk : reconcilePending env spec name ns uid pvc_name pod_name sc sz im orefs
    with ⟨r, acts⟩
  rw [hmk] at h
  simp only [] at h
  subst h
  unfold reconcilePending at hmk
  split at hmk
  all_goals try split at hmk
  all_goals
    simp only [Prod.mk.injEq, Except.ok.injEq, Except.error.injEq, Option.some.injEq,
      reduceCtorEq, false_and] at hmk
  all_goals obtain ⟨h1, h2⟩ := hmk
  all_goals subst h1
  all_goals simp

theorem reconcileRunning_patch_phase (env : Env) (spec : JobSpec)
    (name ns : String) (uid : Option String) (pvc_name pod_name im : String)
    (patch : Patch)
    (h : (reconcileRunning env spec name ns uid pvc_name pod_name im).1 =
      .ok (some patch)) :
    patch.phase = none ∨ patch.phase = some PHASE_SUCCEEDED ∨
      patch.phase = some PHASE_FAILED := by
  rcases hmk : reconcileRunning env spec name ns uid pvc_name pod_name im with ⟨r, acts⟩
  rw [hmk] at h
  simp only [] at h
  subst h
  unfold reconcileRunning at hmk
  split at hmk
  · simp only [Prod.mk.injEq, reduceCtorEq, false_and] at hmk
  · split at hmk
    all_goals
      simp only [Prod.mk.injEq, Except.ok.injEq, Except.error.injEq, Option.some.injEq,
        reduceCtorEq, false_and] at hmk
    obtain ⟨h1, h2⟩ := hmk
    subst h1
    simp
  · rename_i ps heq
    by_cases hS : ps.phase = "Succeeded"
    · simp only [if_pos hS] at hmk
      by_cases hT : spec.ttlSecondsAfterFinished.getD 0 = 0
      · simp only [if_pos hT] at hmk
        split at hmk
        all_goals
          simp only [Prod.mk.injEq, Except.ok.injEq, Option.some.injEq] at hmk
        all_goals obtain ⟨h1, h2⟩ := hmk
        all_goals subst h1
        all_goals simp
      · simp only [if_neg hT] at hmk
        simp only [Prod.mk.injEq, Except.ok.injEq, Option.some.injEq] at hmk
        obtain ⟨h1, h2⟩ := hmk
        subst h1
        simp
    · simp only [if_neg hS] at hmk
      by_cases hF : ps.phase = "Failed"
      · simp only [if_pos hF] at hmk
        simp only [Prod.mk.injEq, Except.ok.injEq, Option.some.injEq] at hmk
        obtain ⟨h1, h2⟩ := hmk
        subst h1
        simp
      · simp only [if_neg hF] at hmk
        simp only [Prod.mk.injEq, Except.ok.injEq, Option.some.injEq] at hmk
        obtain ⟨h1, h2⟩ := hmk
        subst h1
        simp

theorem reconcileTerminal_patch_phase (env : Env) (spec : JobSpec)
    (status : JobStatus) (pvc_name ns : String) (patch : Patch)
    (h : (reconcileTerminal env spec status pvc_name ns).1 = .ok (some patch)) :
    patch.phase = none := by
  rcases hmk : reconcileTerminal env spec status pvc_name ns with ⟨r, acts⟩
  rw [hmk] at h
  simp only [] at h
  subst h
  unfold reconcileTerminal at hmk
  by_cases h0 : spec.pvcTTLSecondsAfterFinished.getD 3600 = 0
  · simp only [if_pos h0] at hmk
    split at hmk
    all_goals
      simp only [Prod.mk.injEq, Except.ok.injEq, Option.some.injEq, reduceCtorEq,
        false_and] at hmk
    obtain ⟨h1, h2⟩ := hmk
    subst h1
    simp
  · simp only [if_neg h0] at hmk
    by_cases hc : optStrTruthy status.finishedAt = true ∧
        spec.pvcTTLSecondsAfterFinished.getD 3600 > 0
    · simp only [if_pos hc] at hmk
      split at hmk
      · simp only [Prod.mk.injEq, Except.ok.injEq, Option.some.injEq, reduceCtorEq,
          false_and] at hmk
      · rename_i wall tz heq
        rcases tz with _ | off
        all_goals simp only [] at hmk
        all_goals split at hmk
        all_goals try split at hmk
        all_goals
          simp only [Prod.mk.injEq, Except.ok.injEq, Option.some.injEq, reduceCtorEq,
            false_and] at hmk
        all_goals obtain ⟨h1, h2⟩ := hmk
        all_goals subst h1
        all_goals simp
    · simp only [if_neg hc] at hmk
      simp only [Prod.mk.injEq, Except.ok.injEq, Option.some.injEq, reduceCtorEq,
        false_and] at hmk

/-- C1: every status patch returned by `reconcile_gpujob` that sets `phase`
sets it to a value no earlier in the order Pending → Running → {Succeeded,
Failed} than the observed phase, and when the observed phase is Succeeded or
Failed the returned patch never carries a `phase` key at all (no transition
out of a terminal phase). -/
theorem C1_monotonic_phase (env : Env) (spec : JobSpec) (status : JobStatus)
    (name ns : String) (uid : Option String) (patch : Patch) (ph : String)
    (hres : (reconcile_gpujob env spec status name ns uid).1 = .ok (some patch))
    (hph : patch.phase = some ph) :
    phaseRank (status.phase.getD PHASE_PENDING) ≤ phaseRank ph ∧
    status.phase.getD PHASE_PENDING ≠ PHASE_SUCCEEDED ∧
    status.phase.getD PHASE_PENDING ≠ PHASE_FAILED := by
  unfold reconcile_gpujob at hres
  by_cases h1 : ALLOWED_MODELS.contains (spec.model.getD "resnet50") = false
  · rw [if_pos (by simp_all)] at hres
    exact absurd hres (by simp)
  · rw [if_neg (by simp_all)] at hres
    by_cases hP : status.phase.getD PHASE_PENDING = PHASE_PENDING
    · rw [if_pos hP] at hres
      have hp := reconcilePending_patch_phase _ _ _ _ _ _ _ _ _ _ _ _ hres
      rw [hph] at hp
      obtain rfl : ph = PHASE_RUNNING := by simpa using hp
      refine ⟨by rw [hP]; simp [phaseRank, PHASE_PENDING, PHASE_RUNNING], ?_, ?_⟩
      · rw [hP]; simp [PHASE_PENDING, PHASE_SUCCEEDED]
      · rw [hP]; simp [PHASE_PENDING, PHASE_FAILED]
    · rw [if_neg hP] at hres
      by_cases hR : status.phase.getD PHASE_PENDING = PHASE_RUNNING
      · rw [if_pos hR] at hres
        have hp := reconcileRunning_patch_phase _ _ _ _ _ _ _ _ _ hres
        rw [hph] at hp
        rcases hp with hp | hp | hp
        · exact absurd hp (by simp)
        · obtain rfl : ph = PHASE_SUCCEEDED := by simpa using hp
          refine ⟨by rw [hR]; simp [phaseRank, PHASE_RUNNING, PHASE_SUCCEEDED], ?_, ?_⟩
          · rw [hR]; simp [PHASE_RUNNING, PHASE_SUCCEEDED]
          · rw [hR]; simp [PHASE_RUNNING, PHASE_FAILED]
        · obtain rfl : ph = PHASE_FAILED := by simpa using hp
          refine ⟨by rw [hR]; simp [phaseRank, PHASE_RUNNING, PHASE_FAILED], ?_, ?_⟩
          · rw [hR]; simp [PHASE_RUNNING, PHASE_SUCCEEDED]
          · rw [hR]; simp [PHASE_RUNNING, PHASE_FAILED]
      · rw [if_neg hR] at hres
        by_cases hT : status.phase.getD PHASE_PENDING = PHASE_SUCCEEDED ∨
            status.phase.getD PHASE_PENDING = PHASE_FAILED
        · rw [if_pos hT] at hres
          have hp := reconcileTerminal_patch_phase _ _ _ _ _ _ hres
          rw [hph] at hp
          exact absurd hp (by simp)
        · rw [if_neg hT] at hres
          exact absurd hres (by simp)

theorem C1_monotonic_phase_witness :
    phaseRank ((JobStatus.mk (some "Running") none).phase.getD PHASE_PENDING) ≤
      phaseRank PHASE_SUCCEEDED ∧
    (JobStatus.mk (some "Running") none).phase.getD PHASE_PENDING ≠ PHASE_SUCCEEDED ∧
    (JobStatus.mk (some "Running") none).phase.getD PHASE_PENDING ≠ PHASE_FAILED :=
  C1_monotonic_phase envPodSucceeded {} { phase := some "Running" } "j" "ns" (some "u")
    { phase := some PHASE_SUCCEEDED
      finishedAt := some "TZ"
      artifactPath := some "/artifacts/output.json"
      message := some "Job completed, pod deleted" } PHASE_SUCCEEDED rfl rfl

/-- C2: with observed phase Running and the pod reporting phase Succeeded, the
returned patch sets phase Succeeded, `finishedAt`, `artifactPath` (the spec's
output path, default `/artifacts/output.json`) and a message, and the pod
delete is issued precisely when `ttlSecondsAfterFinished` (default 0) is 0;
for any other pod-TTL no mutation call is made, so the pod is retained. -/
theorem C2_running_succeeded (env : Env) (spec : JobSpec) (status : JobStatus)
    (name ns : String) (uid : Option String) (pod : PodObj)
    (hmodel : spec.model.getD "resnet50" ∈ ALLOWED_MODELS)
    (hphase : status.phase.getD PHASE_PENDING = PHASE_RUNNING)
    (hpod : env.readPodStatus = .ok pod)
    (hpp : pod.phase = "Succeeded") :
    ∃ patch,
      reconcile_gpujob env spec status name ns uid =
        (.ok (some patch),
         if spec.ttlSecondsAfterFinished.getD 0 = 0 then
           [ApiAction.deletePod ("ephemeralaccelerationjob-" ++ name) ns]
         else []) ∧
      patch.phase = some PHASE_SUCCEEDED ∧
      patch.finishedAt = some (env.nowIso ++ "Z") ∧
      patch.artifactPath = some (spec.outputPath.getD "/artifacts/output.json") ∧
      patch.message.isSome = true := by
  simp only [PHASE_PENDING, PHASE_RUNNING] at hphase
  by_cases hT : spec.ttlSecondsAfterFinished.getD 0 = 0
  · rcases hD : env.deletePod with u | c
    · refine ⟨{ phase := some PHASE_SUCCEEDED
                finishedAt := some (env.nowIso ++ "Z")
                artifactPath := some (spec.outputPath.getD "/artifacts/output.json")
                message := some "Job completed, pod deleted" }, ?_, rfl, rfl, rfl, rfl⟩
      simp [reconcile_gpujob, reconcileRunning, get_pod_status, hmodel, hphase, hpod,
        hpp, hT, hD, PHASE_PENDING, PHASE_RUNNING, PHASE_SUCCEEDED]
    · refine ⟨{ phase := some PHASE_SUCCEEDED
                finishedAt := some (env.nowIso ++ "Z")
                artifactPath := some (spec.outputPath.getD "/artifacts/output.json")
                message := some "Job completed successfully" }, ?_, rfl, rfl, rfl, rfl⟩
      simp [reconcile_gpujob, reconcileRunning, get_pod_status, hmodel, hphase, hpod,
        hpp, hT, hD, PHASE_PENDING, PHASE_RUNNING, PHASE_SUCCEEDED]
  · refine ⟨{ phase := some PHASE_SUCCEEDED
              finishedAt := some (env.nowIso ++ "Z")
              artifactPath := some (spec.outputPath.getD "/artifacts/output.json")
              message := some "Job completed successfully" }, ?_, rfl, rfl, rfl, rfl⟩
    simp [reconcile_gpujob, reconcileRunning, get_pod_status, hmodel, hphase, hpod,
      hpp, hT, PHASE_PENDING, PHASE_RUNNING, PHASE_SUCCEEDED]

theorem C2_running_succeeded_witness :
    ∃ patch,
      reconcile_gpujob envPodSucceeded {} { phase := some "Running" } "j" "ns" (some "u") =
        (.ok (some patch),
         if (({} : JobSpec)).ttlSecondsAfterFinished.getD 0 = 0 then
           [ApiAction.deletePod ("ephemeralaccelerationjob-" ++ "j") "ns"]
         else []) ∧
      patch.phase = some PHASE_SUCCEEDED ∧
      patch.finishedAt = some (envPodSucceeded.nowIso ++ "Z") ∧
      patch.artifactPath = some ((({} : JobSpec)).outputPath.getD "/artifacts/output.json") ∧
      patch.message.isSome = true :=
  C2_running_succeeded envPodSucceeded {} { phase := some "Running" } "j" "ns" (some "u")
    { phase := "Succeeded" } (by decide) rfl rfl rfl

/-- C3: in a terminal phase with a positive volume-TTL and a parseable
`finishedAt`, the tick is a no-op (no patch, no mutation call) while
`now - finishedAt` is below the TTL; once it reaches the TTL the sole mutation
issued is one delete of the claim `artifacts-<name>`, which succeeds exactly
when the claim still exists — when the claim is already gone the delete comes
back 404 and the tick returns no patch, so the claim is the target of at most
one successful delete. -/
theorem C3_volume_ttl (env : Env) (spec : JobSpec) (status : JobStatus)
    (name ns : String) (uid : Option String) (wall finished : Int) (tz : Option Int)
    (hmodel : spec.model.getD "resnet50" ∈ ALLOWED_MODELS)
    (hphase : status.phase.getD PHASE_PENDING = PHASE_SUCCEEDED ∨
      status.phase.getD PHASE_PENDING = PHASE_FAILED)
    (httl : 0 < spec.pvcTTLSecondsAfterFinished.getD 3600)
    (hfin : optStrTruthy status.finishedAt = true)
    (hparse : env.parseIso (replaceZ (status.finishedAt.getD "")) =
      some (wall, tz))
    (hfin2 : finished = match tz with | some off => wall - off | none => wall) :
    (env.now - finished < spec.pvcTTLSecondsAfterFinished.getD 3600 →
      reconcile_gpujob env spec status name ns uid = (.ok none, [])) ∧
    (spec.pvcTTLSecondsAfterFinished.getD 3600 ≤ env.now - finished →
      (reconcile_gpujob env spec status name ns uid).2 =
        [ApiAction.deletePvc ("artifacts-" ++ name) ns] ∧
      (env.deletePvc = .apiErr 404 →
        (reconcile_gpujob env spec status name ns uid).1 = .ok none) ∧
      (∀ u, env.deletePvc = .ok u →
        (reconcile_gpujob env spec status name ns uid).1 =
          .ok (some { message := some "PVC deleted (TTL expired)" }))) := by
  simp only [PHASE_PENDING, PHASE_SUCCEEDED, PHASE_FAILED] at hphase
  have h0 : ¬ spec.pvcTTLSecondsAfterFinished.getD 3600 = 0 := by omega
  rcases tz with _ | off
  all_goals simp only [] at hfin2
  all_goals subst hfin2
  all_goals constructor
  · intro hlt
    have hnle : ¬ spec.pvcTTLSecondsAfterFinished.getD 3600 ≤ env.now - finished := by
      omega
    rcases hphase with hp | hp <;>
      simp [reconcile_gpujob, reconcileTerminal, hp, hmodel, h0, httl, hfin, hparse, hnle,
        PHASE_PENDING, PHASE_RUNNING, PHASE_SUCCEEDED, PHASE_FAILED]
  · intro hge
    rcases hD : env.deletePvc with u | c
    · refine ⟨?_, ?_, ?_⟩
      · rcases hphase with hp | hp <;>
          simp [reconcile_gpujob, reconcileTerminal, hp, hmodel, h0, httl, hfin, hparse, hge, hD,
            PHASE_PENDING, PHASE_RUNNING, PHASE_SUCCEEDED, PHASE_FAILED]
      · intro hcontra
        exact absurd hcontra (by simp)
      · intro u2 _
        rcases hphase with hp | hp <;>
          simp [reconcile_gpujob, reconcileTerminal, hp, hmodel, h0, httl, hfin, hparse, hge, hD,
            PHASE_PENDING, PHASE_RUNNING, PHASE_SUCCEEDED, PHASE_FAILED]
    · refine ⟨?_, ?_, ?_⟩
      · rcases hphase with hp | hp <;>
          simp [reconcile_gpujob, reconcileTerminal, hp, hmodel, h0, httl, hfin, hparse, hge, hD,
            PHASE_PENDING, PHASE_RUNNING, PHASE_SUCCEEDED, PHASE_FAILED]
      · intro _
        rcases hphase with hp | hp <;>
          simp [reconcile_gpujob, reconcileTerminal, hp, hmodel, h0, httl, hfin, hparse, hge, hD,
            PHASE_PENDING, PHASE_RUNNING, PHASE_SUCCEEDED, PHASE_FAILED]
      · intro u2 hcontra
        exact absurd hcontra (by simp)
  · intro hlt
    have hnle : ¬ spec.pvcTTLSecondsAfterFinished.getD 3600 ≤ env.now - (wall - off) := by
      omega
    rcases hphase with hp | hp <;>
      simp [reconcile_gpujob, reconcileTerminal, hp, hmodel, h0, httl, hfin, hparse, hnle,
        PHASE_PENDING, PHASE_RUNNING, PHASE_SUCCEEDED, PHASE_FAILED]
  · intro hge
    rcases hD : env.deletePvc with u | c
    · refine ⟨?_, ?_, ?_⟩
      · rcases hphase with hp | hp <;>
          simp [reconcile_gpujob, reconcileTerminal, hp, hmodel, h0, httl, hfin, hparse, hge, hD,
            PHASE_PENDING, PHASE_RUNNING, PHASE_SUCCEEDED, PHASE_FAILED]
      · intro hcontra
        exact absurd hcontra (by simp)
      · intro u2 _
        rcases hphase with hp | hp <;>
          simp [reconcile_gpujob, reconcileTerminal, hp, hmodel, h0, httl, hfin, hparse, hge, hD,
            PHASE_PENDING, PHASE_RUNNING, PHASE_SUCCEEDED, PHASE_FAILED]
    · refine ⟨?_, ?_, ?_⟩
      · rcases hphase with hp | hp <;>
          simp [reconcile_gpujob, reconcileTerminal, hp, hmodel, h0, httl, hfin, hparse, hge, hD,
            PHASE_PENDING, PHASE_RUNNING, PHASE_SUCCEEDED, PHASE_FAILED]
      · intro _
        rcases hphase with hp | hp <;>
          simp [reconcile_gpujob, reconcileTerminal, hp, hmodel, h0, httl, hfin, hparse, hge, hD,
            PHASE_PENDING, PHASE_RUNNING, PHASE_SUCCEEDED, PHASE_FAILED]
      · intro u2 hcontra
        exact absurd hcontra (by simp)

theorem C3_volume_ttl_witness :
    (envTerminalTick.now - 30 <
        (JobSpec.pvcTTLSecondsAfterFinished
          { pvcTTLSecondsAfterFinished := some 60 }).getD 3600 →
      reconcile_gpujob envTerminalTick { pvcTTLSecondsAfterFinished := some 60 }
          { phase := some "Succeeded", finishedAt := some "FZ" } "j" "ns" (some "u") =
        (.ok none, [])) ∧
    ((JobSpec.pvcTTLSecondsAfterFinished
          { pvcTTLSecondsAfterFinished := some 60 }).getD 3600 ≤
        envTerminalTick.now - 30 →
      (reconcile_gpujob envTerminalTick { pvcTTLSecondsAfterFinished := some 60 }
          { phase := some "Succeeded", finishedAt := some "FZ" } "j" "ns" (some "u")).2 =
        [ApiAction.deletePvc ("artifacts-" ++ "j") "ns"] ∧
      (envTerminalTick.deletePvc = .apiErr 404 →
        (reconcile_gpujob envTerminalTick { pvcTTLSecondsAfterFinished := some 60 }
            { phase := some "Succeeded", finishedAt := some "FZ" } "j" "ns"
            (some "u")).1 = .ok none) ∧
      (∀ u, envTerminalTick.deletePvc = .ok u →
        (reconcile_gpujob envTerminalTick { pvcTTLSecondsAfterFinished := some 60 }
            { phase := some "Succeeded", finishedAt := some "FZ" } "j" "ns"
            (some "u")).1 =
          .ok (some { message := some "PVC deleted (TTL expired)" }))) :=
  C3_volume_ttl envTerminalTick { pvcTTLSecondsAfterFinished := some 60 }
    { phase := some "Succeeded", finishedAt := some "FZ" } "j" "ns" (some "u")
    30 30 (some 0) (by decide) (Or.inl rfl) (by decide) rfl (by decide) (by decide)

/-- C4: with observed phase Running and the pod absent (read 404 in both the
status probe and the ensure step) and the create succeeding, the reconciler
issues exactly one pod create whose manifest carries the derived name
`ephemeralaccelerationjob-<name>` and a single owner reference with the job's
uid, and the returned patch is only a message — it carries no `phase` key, so
the job stays Running. -/
theorem C4_pod_recreated (env : Env) (spec : JobSpec) (status : JobStatus)
    (name ns : String) (uid : Option String)
    (hmodel : spec.model.getD "resnet50" ∈ ALLOWED_MODELS)
    (hphase : status.phase.getD PHASE_PENDING = PHASE_RUNNING)
    (hread : env.readPodStatus = .apiErr 404)
    (hreadE : env.readPodEnsure = .apiErr 404)
    (hcreate : env.createPod = .ok ()) :
    ∃ m, reconcile_gpujob env spec status name ns uid =
        (.ok (some { message := some "Pod recreated" }), [ApiAction.createPod m]) ∧
      m.name = "ephemeralaccelerationjob-" ++ name ∧
      (∃ oref, m.ownerReferences = [oref] ∧ oref.uid = uid) ∧
      ({ message := some "Pod recreated" } : Patch).phase = none := by
  simp only [PHASE_PENDING, PHASE_RUNNING] at hphase
  refine ⟨create_pod_manifest ("ephemeralaccelerationjob-" ++ name) ns name uid
    (spec.model.getD "resnet50") (spec.inputPath.getD "/artifacts/input.jpg")
    (spec.outputPath.getD "/artifacts/output.json") (spec.gpu.getD 1)
    (spec.image.getD "gpu-job-inference:latest") ("artifacts-" ++ name),
    ?_, rfl, ⟨_, rfl, rfl⟩, rfl⟩
  simp [reconcile_gpujob, reconcileRunning, ensure_pod, get_pod_status, hmodel, hphase,
    hread, hreadE, hcreate, PHASE_PENDING, PHASE_RUNNING]

theorem C4_pod_recreated_witness :
    ∃ m, reconcile_gpujob envTerminalTick {} { phase := some "Running" } "j" "ns"
        (some "u") =
        (.ok (some { message := some "Pod recreated" }), [ApiAction.createPod m]) ∧
      m.name = "ephemeralaccelerationjob-" ++ "j" ∧
      (∃ oref, m.ownerReferences = [oref] ∧ oref.uid = some "u") ∧
      ({ message := some "Pod recreated" } : Patch).phase = none :=
  C4_pod_recreated envTerminalTick {} { phase := some "Running" } "j" "ns" (some "u")
    (by decide) rfl rfl rfl rfl

/-- C5 counterexample: a spec with `resources.gpu = 0` and negative TTLs is
not rejected — from phase Pending the handler returns the normal `Running`
patch (no permanent error) after the reconciler has already created both
children in the cluster. -/
theorem C5_counterexample_not_rejected :
    gpujob_handler envPodSucceeded specBadNumbers {} "j" "ns" (some "u") =
      .patch { phase := some PHASE_RUNNING
               startedAt := some "TZ"
               podName := some "ephemeralaccelerationjob-j"
               message := some "Pod created and starting" } ∧
    (reconcile_gpujob envPodSucceeded specBadNumbers {} "j" "ns" (some "u")).2.length = 2 := by
  constructor <;> rfl

/-- C5 amended: only a model outside the allowed set is rejected, and that
rejection is a `ValueError` raised before any cluster call, surfaced by the
handler as a permanent (non-retriable) error; specs with a non-positive
`resources.gpu` or negative TTL fields pass validation untouched. -/
theorem C5_only_model_validated (env : Env) (spec : JobSpec) (status : JobStatus)
    (name ns : String) (uid : Option String)
    (hmodel : spec.model.getD "resnet50" ∉ ALLOWED_MODELS) :
    reconcile_gpujob env spec status name ns uid =
      (.error (.valueError ("Invalid model: " ++ spec.model.getD "resnet50")), []) ∧
    gpujob_handler env spec status name ns uid =
      .permanentError ("Invalid model: " ++ spec.model.getD "resnet50") := by
  constructor
  · simp [reconcile_gpujob, hmodel]
  · simp [gpujob_handler, reconcile_gpujob, hmodel]

theorem C5_only_model_validated_witness :
    reconcile_gpujob envPodSucceeded { model := some "llama" } {} "j" "ns" (some "u") =
      (.error (.valueError ("Invalid model: " ++
        (JobSpec.model { model := some "llama" }).getD "resnet50")), []) ∧
    gpujob_handler envPodSucceeded { model := some "llama" } {} "j" "ns" (some "u") =
      .permanentError ("Invalid model: " ++
        (JobSpec.model { model := some "llama" }).getD "resnet50") :=
  C5_only_model_validated envPodSucceeded { model := some "llama" } {} "j" "ns"
    (some "u") (by decide)

/-- C6 counterexample: when the pod delete at the Running → Succeeded
transition fails with a non-404 API error, the invocation does not abort —
the full status patch is still returned, so "any cluster API failure other
than not-found aborts the invocation with no patch" is false. -/
theorem C6_counterexample_delete_failure_not_aborting :
    envDeletePodFails.deletePod = .apiErr 500 ∧
    (reconcile_gpujob envDeletePodFails {} { phase := some "Running" } "j" "ns"
        (some "u")).2 = [ApiAction.deletePod "ephemeralaccelerationjob-j" "ns"] ∧
    (reconcile_gpujob envDeletePodFails {} { phase := some "Running" } "j" "ns"
        (some "u")).1 =
      .ok (some { phase := some PHASE_SUCCEEDED
                  finishedAt := some "TZ"
                  artifactPath := some "/artifacts/output.json"
                  message := some "Job completed successfully" }) := by
  refine ⟨rfl, rfl, rfl⟩

/-- C6 amended: a cluster read failing with an error other than not-found
aborts the invocation with the propagated error, no status patch and no
cluster call at all; a failing create aborts right after the one failed
create call, again with no status patch; a failing pod delete (on both the
Succeeded and the Failed path), a failing claim delete and a failing
owner-reference patch are logged and swallowed — the invocation completes
without error and the full status patch, when one is due, is still returned.
A partial status is never written either way. -/
theorem C6_read_create_abort_delete_swallowed (spec : JobSpec)
    (statusP statusR statusT : JobStatus) (name ns : String) (uid : Option String)
    (hmodel : spec.model.getD "resnet50" ∈ ALLOWED_MODELS)
    (hP : statusP.phase.getD PHASE_PENDING = PHASE_PENDING)
    (hR : statusR.phase.getD PHASE_PENDING = PHASE_RUNNING)
    (hT : statusT.phase.getD PHASE_PENDING = PHASE_SUCCEEDED ∨
      statusT.phase.getD PHASE_PENDING = PHASE_FAILED) :
    (∀ env c, c ≠ 404 → env.readPvc = .apiErr c →
      reconcile_gpujob env spec statusP name ns uid = (.error (.apiExn c), [])) ∧
    (∀ env c, c ≠ 404 → env.readPodStatus = .apiErr c →
      reconcile_gpujob env spec statusR name ns uid = (.error (.apiExn c), [])) ∧
    (∀ env c, env.readPvc = .apiErr 404 → env.createPvc = .apiErr c →
      ∃ m, reconcile_gpujob env spec statusP name ns uid =
        (.error (.apiExn c), [ApiAction.createPvc m])) ∧
    (∀ env c, env.readPodStatus = .apiErr 404 → env.readPodEnsure = .apiErr 404 →
      env.createPod = .apiErr c →
      ∃ m, reconcile_gpujob env spec statusR name ns uid =
        (.error (.apiExn c), [ApiAction.createPod m])) ∧
    (∀ env pod c, env.readPodStatus = .ok pod → pod.phase = "Succeeded" →
      spec.ttlSecondsAfterFinished.getD 0 = 0 → env.deletePod = .apiErr c →
      reconcile_gpujob env spec statusR name ns uid =
        (.ok (some { phase := some PHASE_SUCCEEDED
                     finishedAt := some (env.nowIso ++ "Z")
                     artifactPath := some (spec.outputPath.getD "/artifacts/output.json")
                     message := some "Job completed successfully" }),
         [ApiAction.deletePod ("ephemeralaccelerationjob-" ++ name) ns])) ∧
    (∀ env pod c, env.readPodStatus = .ok pod → pod.phase = "Failed" →
      env.deletePod = .apiErr c →
      ∃ msg, reconcile_gpujob env spec statusR name ns uid =
        (.ok (some { phase := some PHASE_FAILED
                     finishedAt := some (env.nowIso ++ "Z")
                     message := some msg }),
         [ApiAction.deletePod ("ephemeralaccelerationjob-" ++ name) ns])) ∧
    (∀ env c, spec.pvcTTLSecondsAfterFinished.getD 3600 = 0 → env.deletePvc = .apiErr c →
      reconcile_gpujob env spec statusT name ns uid =
        (.ok none, [ApiAction.deletePvc ("artifacts-" ++ name) ns])) ∧
    (∀ env pvc pod c, optStrTruthy uid = true → env.readPvc = .ok pvc →
      pyEmptyOrNone pvc.ownerReferences = true → env.patchPvc = .apiErr c →
      env.readPodEnsure = .ok pod →
      ∃ refs, reconcile_gpujob env spec statusP name ns uid =
        (.ok (some { phase := some PHASE_RUNNING
                     startedAt := some (env.nowIso ++ "Z")
                     podName := some ("ephemeralaccelerationjob-" ++ name)
                     message := some "Pod created and starting" }),
         [ApiAction.patchPvcOwnerRefs ("artifacts-" ++ name) ns refs])) := by
  simp only [PHASE_PENDING, PHASE_RUNNING, PHASE_SUCCEEDED, PHASE_FAILED] at hP hR hT
  refine ⟨?_, ?_, ?_, ?_, ?_, ?_, ?_, ?_⟩
  · intro env c hc hr
    simp [reconcile_gpujob, reconcilePending, ensure_pvc, hmodel, hP, hc, hr,
      PHASE_PENDING]
  · intro env c hc hr
    simp [reconcile_gpujob, reconcileRunning, get_pod_status, hmodel, hR, hc, hr,
      PHASE_PENDING, PHASE_RUNNING]
  · intro env c hr hcr
    by_cases huid : optStrTruthy uid = true
    · refine ⟨create_pvc_manifest ("artifacts-" ++ name) ns
        (spec.storageClass.getD "local-path") (spec.pvcSize.getD "1Gi")
        (some [{ apiVersion := "gpu.yourdomain.io/v1alpha1"
                 kind := "EphemeralAccelerationJob"
                 name := name
                 uid := uid
                 controller := true
                 blockOwnerDeletion := false }]), ?_⟩
      simp [reconcile_gpujob, reconcilePending, ensure_pvc, hmodel, hP, huid, hr, hcr,
        PHASE_PENDING]
    · refine ⟨create_pvc_manifest ("artifacts-" ++ name) ns
        (spec.storageClass.getD "local-path") (spec.pvcSize.getD "1Gi") none, ?_⟩
      simp [reconcile_gpujob, reconcilePending, ensure_pvc, hmodel, hP, huid, hr, hcr,
        PHASE_PENDING]
  · intro env c hr hre hcr
    refine ⟨create_pod_manifest ("ephemeralaccelerationjob-" ++ name) ns name uid
      (spec.model.getD "resnet50") (spec.inputPath.getD "/artifacts/input.jpg")
      (spec.outputPath.getD "/artifacts/output.json") (spec.gpu.getD 1)
      (spec.image.getD "gpu-job-inference:latest") ("artifacts-" ++ name), ?_⟩
    simp [reconcile_gpujob, reconcileRunning, ensure_pod, get_pod_status, hmodel, hR,
      hr, hre, hcr, PHASE_PENDING, PHASE_RUNNING]
  · intro env pod c hr hpp httl hd
    simp [reconcile_gpujob, reconcileRunning, get_pod_status, hmodel, hR, hr, hpp,
      httl, hd, PHASE_PENDING, PHASE_RUNNING, PHASE_SUCCEEDED]
  · intro env pod c hr hpp hd
    rcases hl : env.readPodLog with l | cl
    · by_cases hE : l.isEmpty = true
      · refine ⟨"Job failed", ?_⟩
        simp [reconcile_gpujob, reconcileRunning, get_pod_status, get_pod_logs, hmodel,
          hR, hr, hpp, hd, hl, hE, PHASE_PENDING, PHASE_RUNNING, PHASE_FAILED]
      · refine ⟨"Job failed. Last logs:\n" ++ last500 l, ?_⟩
        simp [reconcile_gpujob, reconcileRunning, get_pod_status, get_pod_logs, hmodel,
          hR, hr, hpp, hd, hl, hE, PHASE_PENDING, PHASE_RUNNING, PHASE_FAILED]
    · refine ⟨"Job failed", ?_⟩
      simp [reconcile_gpujob, reconcileRunning, get_pod_status, get_pod_logs, hmodel,
        hR, hr, hpp, hd, hl, PHASE_PENDING, PHASE_RUNNING, PHASE_FAILED]
  · intro env c h0 hd
    rcases hT with ht | ht <;>
      simp [reconcile_gpujob, reconcileTerminal, hmodel, ht, h0, hd,
        PHASE_PENDING, PHASE_RUNNING, PHASE_SUCCEEDED, PHASE_FAILED]
  · intro env pvc pod c huid hr hempty hpatch hpode
    refine ⟨[{ apiVersion := "gpu.yourdomain.io/v1alpha1"
               kind := "EphemeralAccelerationJob"
               name := name
               uid := uid
               controller := true
               blockOwnerDeletion := false }], ?_⟩
    simp [reconcile_gpujob, reconcilePending, ensure_pvc, ensure_pod, optListTruthy,
      hmodel, hP, huid, hr, hempty, hpatch, hpode, PHASE_PENDING, PHASE_RUNNING]

theorem C6_read_create_abort_delete_swallowed_witness :
    reconcile_gpujob envReadsFail { pvcTTLSecondsAfterFinished := some 0 } {} "j" "ns"
      (some "u") = (.error (.apiExn 500), []) ∧
    reconcile_gpujob envReadsFail { pvcTTLSecondsAfterFinished := some 0 }
      { phase := some "Running" } "j" "ns" (some "u") = (.error (.apiExn 500), []) ∧
    (∃ m, reconcile_gpujob envCreatesFail { pvcTTLSecondsAfterFinished := some 0 } {}
        "j" "ns" (some "u") = (.error (.apiExn 503), [ApiAction.createPvc m])) ∧
    (∃ m, reconcile_gpujob envCreatesFail { pvcTTLSecondsAfterFinished := some 0 }
        { phase := some "Running" } "j" "ns" (some "u") =
        (.error (.apiExn 503), [ApiAction.createPod m])) ∧
    reconcile_gpujob envDeletePodFails { pvcTTLSecondsAfterFinished := some 0 }
      { phase := some "Running" } "j" "ns" (some "u") =
      (.ok (some { phase := some PHASE_SUCCEEDED
                   finishedAt := some (envDeletePodFails.nowIso ++ "Z")
                   artifactPath := some ((JobSpec.outputPath
                     { pvcTTLSecondsAfterFinished := some 0 }).getD "/artifacts/output.json")
                   message := some "Job completed successfully" }),
       [ApiAction.deletePod ("ephemeralaccelerationjob-" ++ "j") "ns"]) ∧
    (∃ msg, reconcile_gpujob envPodFailedDeleteFails
        { pvcTTLSecondsAfterFinished := some 0 } { phase := some "Running" } "j" "ns"
        (some "u") =
        (.ok (some { phase := some PHASE_FAILED
                     finishedAt := some (envPodFailedDeleteFails.nowIso ++ "Z")
                     message := some msg }),
         [ApiAction.deletePod ("ephemeralaccelerationjob-" ++ "j") "ns"])) ∧
    reconcile_gpujob envDeletePvcFails { pvcTTLSecondsAfterFinished := some 0 }
      { phase := some "Succeeded" } "j" "ns" (some "u") =
      (.ok none, [ApiAction.deletePvc ("artifacts-" ++ "j") "ns"]) ∧
    (∃ refs, reconcile_gpujob envPatchPvcFails { pvcTTLSecondsAfterFinished := some 0 }
        {} "j" "ns" (some "u") =
        (.ok (some { phase := some PHASE_RUNNING
                     startedAt := some (envPatchPvcFails.nowIso ++ "Z")
                     podName := some ("ephemeralaccelerationjob-" ++ "j")
                     message := some "Pod created and starting" }),
         [ApiAction.patchPvcOwnerRefs ("artifacts-" ++ "j") "ns" refs])) := by
  have h := C6_read_create_abort_delete_swallowed
    { pvcTTLSecondsAfterFinished := some 0 } {} { phase := some "Running" }
    { phase := some "Succeeded" } "j" "ns" (some "u") (by decide) rfl rfl (Or.inl rfl)
  exact ⟨h.1 envReadsFail 500 (by decide) rfl,
         h.2.1 envReadsFail 500 (by decide) rfl,
         h.2.2.1 envCreatesFail 503 rfl rfl,
         h.2.2.2.1 envCreatesFail 503 rfl rfl rfl,
         h.2.2.2.2.1 envDeletePodFails { phase := "Succeeded" } 500 rfl rfl rfl rfl,
         h.2.2.2.2.2.1 envPodFailedDeleteFails { phase := "Failed" } 500 rfl rfl rfl,
         h.2.2.2.2.2.2.1 envDeletePvcFails 500 rfl rfl,
         h.2.2.2.2.2.2.2 envPatchPvcFails { ownerReferences := none }
           { phase := "Running" } 500 rfl rfl rfl rfl rfl⟩

/-- C7 counterexample: on a create race (read 404, create 409) neither ensure
step treats the object as present — both re-raise the conflict instead of
returning success. -/
theorem C7_counterexample_create_race_raises :
    (ensure_pod envCreateRace "ephemeralaccelerationjob-j" "ns" "j" (some "u") {}
        "artifacts-j" "img").1 = .error (.apiExn 409) ∧
    (ensure_pvc envCreateRace "artifacts-j" "ns" "local-path" "1Gi" none).1 =
      .error (.apiExn 409) := by
  constructor <;> rfl

/-- C7 amended: on a create race each ensure step re-raises the conflict
instead of returning success (at the handler it surfaces as a transient,
retriable error); the race is tolerated only across invocations: on a later
invocation whose read observes the object, `ensure_pod` returns success with
no writes, and `ensure_pvc` returns success issuing exactly one
owner-reference patch when owner references are supplied and the observed
claim has none, and no write otherwise. -/
theorem C7_create_race_raises_then_converges (spec : JobSpec)
    (pod_name ns job_name : String) (uid : Option String)
    (pvc_name sc sz image : String) (orefs : Option (List OwnerRef)) :
    (∀ env, env.readPodEnsure = .apiErr 404 → env.createPod = .apiErr 409 →
      (ensure_pod env pod_name ns job_name uid spec pvc_name image).1 =
        .error (.apiExn 409)) ∧
    (∀ env, env.readPvc = .apiErr 404 → env.createPvc = .apiErr 409 →
      (ensure_pvc env pvc_name ns sc sz orefs).1 = .error (.apiExn 409)) ∧
    (∀ env statusP, statusP.phase.getD PHASE_PENDING = PHASE_PENDING →
      spec.model.getD "resnet50" ∈ ALLOWED_MODELS →
      env.readPvc = .apiErr 404 → env.createPvc = .apiErr 409 →
      gpujob_handler env spec statusP job_name ns uid =
        .temporaryError "Reconciliation failed") ∧
    (∀ env pod, env.readPodEnsure = .ok pod →
      ensure_pod env pod_name ns job_name uid spec pvc_name image = (.ok (), [])) ∧
    (∀ env pvc, env.readPvc = .ok pvc →
      (optListTruthy orefs = true ∧ pyEmptyOrNone pvc.ownerReferences = true →
        ensure_pvc env pvc_name ns sc sz orefs =
          (.ok (), [ApiAction.patchPvcOwnerRefs pvc_name ns (orefs.getD [])])) ∧
      (¬ (optListTruthy orefs = true ∧ pyEmptyOrNone pvc.ownerReferences = true) →
        ensure_pvc env pvc_name ns sc sz orefs = (.ok (), []))) := by
  refine ⟨?_, ?_, ?_, ?_, ?_⟩
  · intro env hre hcr
    simp [ensure_pod, hre, hcr]
  · intro env hr hcr
    simp [ensure_pvc, hr, hcr]
  · intro env statusP hp hmodel hr hcr
    simp only [PHASE_PENDING] at hp
    simp [gpujob_handler, reconcile_gpujob, reconcilePending, ensure_pvc, hmodel, hp,
      hr, hcr, PHASE_PENDING]
  · intro env pod hre
    simp [ensure_pod, hre]
  · intro env pvc hr
    constructor
    · intro ho
      simp [ensure_pvc, hr, ho]
    · intro ho
      simp [ensure_pvc, hr, ho]

theorem C7_create_race_raises_then_converges_witness :
    (ensure_pod envCreateRace "p" "ns" "j" (some "u") {} "pvc" "img").1 =
      .error (.apiExn 409) ∧
    (ensure_pvc envCreateRace "pvc" "ns" "local-path" "1Gi" (some [ownerRefU])).1 =
      .error (.apiExn 409) ∧
    gpujob_handler envCreateRace {} {} "j" "ns" (some "u") =
      .temporaryError "Reconciliation failed" ∧
    ensure_pod envChildrenPresent "p" "ns" "j" (some "u") {} "pvc" "img" =
      (.ok (), []) ∧
    ensure_pvc envPatchPvcFails "pvc" "ns" "local-path" "1Gi" (some [ownerRefU]) =
      (.ok (), [ApiAction.patchPvcOwnerRefs "pvc" "ns"
        ((some [ownerRefU]).getD [])]) ∧
    ensure_pvc envChildrenPresent "pvc" "ns" "local-path" "1Gi" (some [ownerRefU]) =
      (.ok (), []) := by
  have h := C7_create_race_raises_then_converges {} "p" "ns" "j" (some "u") "pvc"
    "local-path" "1Gi" "img" (some [ownerRefU])
  exact ⟨h.1 envCreateRace rfl rfl,
         h.2.1 envCreateRace rfl rfl,
         h.2.2.1 envCreateRace {} rfl (by decide) rfl rfl,
         h.2.2.2.1 envChildrenPresent { phase := "Running" } rfl,
         (h.2.2.2.2 envPatchPvcFails { ownerReferences := none } rfl).1 (by decide),
         (h.2.2.2.2 envChildrenPresent { ownerReferences := some [ownerRefU] } rfl).2
           (by decide)⟩

/-- C8: in a terminal phase with a positive volume-TTL and a present but
unparseable `finishedAt`, the tick never raises — the parse failure is caught,
no claim delete is attempted, no mutation call is made, and no patch is
returned. -/
theorem C8_bad_timestamp_skips_ttl (env : Env) (spec : JobSpec) (status : JobStatus)
    (name ns : String) (uid : Option String)
    (hmodel : spec.model.getD "resnet50" ∈ ALLOWED_MODELS)
    (hphase : status.phase.getD PHASE_PENDING = PHASE_SUCCEEDED ∨
      status.phase.getD PHASE_PENDING = PHASE_FAILED)
    (httl : 0 < spec.pvcTTLSecondsAfterFinished.getD 3600)
    (hfin : optStrTruthy status.finishedAt = true)
    (hparse : env.parseIso (replaceZ (status.finishedAt.getD "")) = none) :
    reconcile_gpujob env spec status name ns uid = (.ok none, []) := by
  simp only [PHASE_PENDING, PHASE_SUCCEEDED, PHASE_FAILED] at hphase
  have h0 : ¬ spec.pvcTTLSecondsAfterFinished.getD 3600 = 0 := by omega
  rcases hphase with hp | hp <;>
    simp [reconcile_gpujob, reconcileTerminal, hmodel, hp, h0, httl, hfin, hparse,
      PHASE_PENDING, PHASE_RUNNING, PHASE_SUCCEEDED, PHASE_FAILED]

theorem C8_bad_timestamp_skips_ttl_witness :
    reconcile_gpujob envPodSucceeded {}
      { phase := some "Failed", finishedAt := some "not-a-timestamp" } "j" "ns"
      (some "u") = (.ok none, []) :=
  C8_bad_timestamp_skips_ttl envPodSucceeded {}
    { phase := some "Failed", finishedAt := some "not-a-timestamp" } "j" "ns"
    (some "u") (by decide) (Or.inr rfl) (by decide) rfl rfl

/-- C9: with observed phase Running and pod phase Failed, any API error from
the log fetch (404 or otherwise) makes `get_pod_logs` return `None` instead of
raising, and the transition still completes: the patch carries phase Failed,
`finishedAt` and the fallback message "Job failed", and the pod delete is
still issued. -/
theorem C9_log_failure_does_not_abort (env : Env) (spec : JobSpec)
    (status : JobStatus) (name ns : String) (uid : Option String) (pod : PodObj)
    (c : Nat)
    (hmodel : spec.model.getD "resnet50" ∈ ALLOWED_MODELS)
    (hphase : status.phase.getD PHASE_PENDING = PHASE_RUNNING)
    (hpod : env.readPodStatus = .ok pod)
    (hpp : pod.phase = "Failed")
    (hlog : env.readPodLog = .apiErr c) :
    get_pod_logs env = none ∧
    reconcile_gpujob env spec status name ns uid =
      (.ok (some { phase := some PHASE_FAILED
                   finishedAt := some (env.nowIso ++ "Z")
                   message := some "Job failed" }),
       [ApiAction.deletePod ("ephemeralaccelerationjob-" ++ name) ns]) := by
  simp only [PHASE_PENDING, PHASE_RUNNING] at hphase
  constructor
  · simp [get_pod_logs, hlog]
  · simp [reconcile_gpujob, reconcileRunning, get_pod_status, get_pod_logs, hmodel,
      hphase, hpod, hpp, hlog, PHASE_PENDING, PHASE_RUNNING, PHASE_FAILED]

theorem C9_log_failure_does_not_abort_witness :
    get_pod_logs envPodFailedLogError = none ∧
    reconcile_gpujob envPodFailedLogError {} { phase := some "Running" } "j" "ns"
      (some "u") =
      (.ok (some { phase := some PHASE_FAILED
                   finishedAt := some (envPodFailedLogError.nowIso ++ "Z")
                   message := some "Job failed" }),
       [ApiAction.deletePod ("ephemeralaccelerationjob-" ++ "j") "ns"]) :=
  C9_log_failure_does_not_abort envPodFailedLogError {} { phase := some "Running" }
    "j" "ns" (some "u") { phase := "Failed" } 500 (by decide) rfl rfl rfl rfl

/-- C10: from phase Pending with an absent (falsy) job uid and both children
missing, the created claim manifest carries no owner references at all, while
the created pod manifest still carries exactly one owner reference whose uid
field is that absent value — the two children diverge on ownership. -/
theorem C10_absent_uid_ownership_divergence (env : Env) (spec : JobSpec)
    (status : JobStatus) (name ns : String) (uid : Option String)
    (hmodel : spec.model.getD "resnet50" ∈ ALLOWED_MODELS)
    (hphase : status.phase.getD PHASE_PENDING = PHASE_PENDING)
    (huid : optStrTruthy uid = false)
    (hpvcRead : env.readPvc = .apiErr 404)
    (hpvcCreate : env.createPvc = .ok ())
    (hpodRead : env.readPodEnsure = .apiErr 404)
    (hpodCreate : env.createPod = .ok ()) :
    ∃ mPvc mPod,
      reconcile_gpujob env spec status name ns uid =
        (.ok (some { phase := some PHASE_RUNNING
                     startedAt := some (env.nowIso ++ "Z")
                     podName := some ("ephemeralaccelerationjob-" ++ name)
                     message := some "Pod created and starting" }),
         [ApiAction.createPvc mPvc, ApiAction.createPod mPod]) ∧
      mPvc.ownerReferences = none ∧
      (∃ oref, mPod.ownerReferences = [oref] ∧ oref.uid = uid) := by
  simp only [PHASE_PENDING] at hphase
  refine ⟨create_pvc_manifest ("artifacts-" ++ name) ns (spec.storageClass.getD "local-path")
    (spec.pvcSize.getD "1Gi") none,
    create_pod_manifest ("ephemeralaccelerationjob-" ++ name) ns name uid
      (spec.model.getD "resnet50") (spec.inputPath.getD "/artifacts/input.jpg")
      (spec.outputPath.getD "/artifacts/output.json") (spec.gpu.getD 1)
      (spec.image.getD "gpu-job-inference:latest") ("artifacts-" ++ name),
    ?_, by simp [create_pvc_manifest, optListTruthy], ⟨_, rfl, rfl⟩⟩
  simp [reconcile_gpujob, reconcilePending, ensure_pvc, ensure_pod, hmodel, hphase,
    huid, hpvcRead, hpvcCreate, hpodRead, hpodCreate, PHASE_PENDING, PHASE_RUNNING]

theorem C10_absent_uid_ownership_divergence_witness :
    ∃ mPvc mPod,
      reconcile_gpujob envPodSucceeded {} {} "j" "ns" none =
        (.ok (some { phase := some PHASE_RUNNING
                     startedAt := some (envPodSucceeded.nowIso ++ "Z")
                     podName := some ("ephemeralaccelerationjob-" ++ "j")
                     message := some "Pod created and starting" }),
         [ApiAction.createPvc mPvc, ApiAction.createPod mPod]) ∧
      mPvc.ownerReferences = none ∧
      (∃ oref, mPod.ownerReferences = [oref] ∧ oref.uid = none) :=
  C10_absent_uid_ownership_divergence envPodSucceeded {} {} "j" "ns" none (by decide)
    rfl rfl rfl rfl rfl rfl
